import Mathlib

/-!
Verification development for the `gradio_component_videoslider` frontend.

The source consists of three Svelte components plus a root index:
* `Slider.svelte` — draggable divider; pixel/normalized position conversion
  and drag-vs-click disambiguation (d3-drag handlers);
* `VideoSliderPreview.svelte` — two video players, a reactive block that
  synchronizes the secondary video to the primary and performs one-shot
  autoplay, and `toggle_playback`;
* `Player.svelte` — a single-video player with its own `play_pause`;
* `Index.svelte` — the root, mapping the 0–100 `position` prop to [0,1].

JavaScript numbers are modelled as rationals (ℚ).  Division by zero in
JavaScript produces a non-finite number (Infinity or NaN), never a rational;
where that matters the result type is `Option ℚ` with `none` standing for
a non-finite value.  Method calls on media elements (`play`, `pause`,
assignments to `currentTime`) are modelled as emitted call lists so that
"which calls does one tick make" is a computable function of the state.
-/

namespace VideoSlider

/-- Utility from `Slider.svelte` line 13: `Math.min(Math.max(value, lo), hi)`. -/
def clamp (value lo hi : ℚ) : ℚ :=
  min (max value lo) hi

/-- The JavaScript constant `Number.EPSILON` = 2⁻⁵². -/
def epsilon : ℚ := 1 / 2 ^ 52

/-- JavaScript `Math.round`: nearest integer, halves toward +∞. -/
def jsRound (q : ℚ) : ℤ := ⌊q + 1 / 2⌋

/-- From `Slider.svelte` lines 70–73:
`round(n, points) = Math.round((n + Number.EPSILON) * 10^points) / 10^points`. -/
def round (n : ℚ) (points : ℕ) : ℚ :=
  let mod : ℚ := 10 ^ points
  (jsRound ((n + epsilon) * mod) : ℚ) / mod

/-- The normalized-position formula of `update_position` (`Slider.svelte`
line 78): `round((x - image_size.left) / image_size.width, 5)`.  Only
meaningful when `width ≠ 0`. -/
def posOfPixel (x left width : ℚ) : ℚ :=
  round ((x - left) / width) 5

/-- The `position` assignment of `update_position` under JavaScript number
semantics: when `image_size.width = 0` the division yields a non-finite
number (±Infinity, or NaN when `x = left`), modelled as `none`. -/
def update_position_pos (x left width : ℚ) : Option ℚ :=
  if width = 0 then none else some (posOfPixel x left width)

/-- The `px` assignment of `update_position` (`Slider.svelte` line 77):
`clamp(x, 0, container_width)`. -/
def update_position_px (x container_width : ℚ) : ℚ :=
  clamp x 0 container_width

/-- From `Slider.svelte` lines 108–110 (`update_position_from_pc`):
`px = clamp(image_size.width * pc + image_size.left, 0, container_width)`. -/
def update_position_from_pc (pc left width container_width : ℚ) : ℚ :=
  clamp (width * pc + left) 0 container_width

/-- From `Slider.svelte` lines 58–68 (`set_position`).  The DOM measurements
`parent_el?.getBoundingClientRect().width || 0` and
`el?.getBoundingClientRect().width || 0` are inputs `measuredParentW` and
`measuredElW` (already defaulted to 0 for a missing element).  Returns the
new `(container_width, image_size.width, px)`. -/
def set_position (width measuredParentW measuredElW left position : ℚ) :
    ℚ × ℚ × ℚ :=
  let container_width := measuredParentW
  let w := if width = 0 then measuredElW else width
  (container_width, w, clamp (w * position + left) 0 container_width)

/-- From `Index.svelte` line 64:
`Math.max(0, Math.min(100, position)) / 100`. -/
def normalised_slider_position (position : ℚ) : ℚ :=
  max 0 (min 100 position) / 100

/-! ## Drag controller state machine (`Slider.svelte` lines 83–105)

The d3-drag handlers `drag_start` / `drag_move` / `drag_end` mutate the
component state and may dispatch a `click` event.  Observable effects are
collected in a list: `posUpdate` marks a call to `update_position` (which
changes the two-way-bound `position`), `click ev` marks
`dispatch("click", event.sourceEvent)` where `ev` identifies the
originating source event. -/

/-- The layout prop `image_size` of `Slider.svelte` (lines 27–32). -/
structure Geometry where
  top : ℚ
  left : ℚ
  width : ℚ
  height : ℚ
deriving DecidableEq

/-- The internal state of `Slider.svelte` that the drag handlers touch. -/
structure SliderState where
  position : Option ℚ
  disabled : Bool
  image_size : Geometry
  px : ℚ
  active : Bool
  container_width : ℚ
  drag_start_x : ℚ
  was_dragged : Bool
deriving DecidableEq

/-- Observable outputs of the drag handlers. -/
inductive SliderOut where
  | posUpdate : SliderOut
  | click : ℕ → SliderOut
deriving DecidableEq

/-- The state effect of `update_position(x)` (`Slider.svelte` lines 76–79). -/
def updatePosState (s : SliderState) (x : ℚ) : SliderState :=
  { s with
    px := update_position_px x s.container_width,
    position := update_position_pos x s.image_size.left s.image_size.width }

/-- `drag_start` (`Slider.svelte` lines 83–89). -/
def drag_start (s : SliderState) (x : ℚ) : SliderState × List SliderOut :=
  if s.disabled then (s, [])
  else
    let s1 := { s with active := true }
    let s2 := updatePosState s1 x
    ({ s2 with drag_start_x := x, was_dragged := false }, [SliderOut.posUpdate])

/-- `drag_move` (`Slider.svelte` lines 91–97). -/
def drag_move (s : SliderState) (x : ℚ) : SliderState × List SliderOut :=
  if s.disabled then (s, [])
  else
    let s1 := updatePosState s x
    (if |x - s.drag_start_x| > 3 then { s1 with was_dragged := true } else s1,
      [SliderOut.posUpdate])

/-- `drag_end` (`Slider.svelte` lines 99–105); `ev` is the source event. -/
def drag_end (s : SliderState) (ev : ℕ) : SliderState × List SliderOut :=
  if s.disabled then (s, [])
  else
    let s1 := { s with active := false }
    if s1.was_dragged then (s1, []) else (s1, [SliderOut.click ev])

/-- A pointer gesture event as delivered by d3-drag. -/
inductive DragEvent where
  | down : ℚ → DragEvent
  | move : ℚ → DragEvent
  | up : ℕ → DragEvent
deriving DecidableEq

/-- Dispatch one d3-drag event to its handler. -/
def dragStep (s : SliderState) : DragEvent → SliderState × List SliderOut
  | DragEvent.down x => drag_start s x
  | DragEvent.move x => drag_move s x
  | DragEvent.up ev => drag_end s ev

/-- Run a sequence of drag events, accumulating the outputs in order. -/
def dragRun (s : SliderState) : List DragEvent → SliderState × List SliderOut
  | [] => (s, [])
  | e :: es =>
      let r1 := dragStep s e
      let r2 := dragRun r1.1 es
      (r2.1, r1.2 ++ r2.2)

/-- Count the `click` outputs in a list. -/
def countClicks (l : List SliderOut) : ℕ :=
  l.countP fun o => match o with | SliderOut.click _ => true | _ => false

/-- Count the `posUpdate` outputs in a list. -/
def countPosUpdates (l : List SliderOut) : ℕ :=
  l.countP fun o => match o with | SliderOut.posUpdate => true | _ => false

/-- A concrete enabled slider state (geometry of the spec's end-to-end
scenario: left 100, width 400, container width 600). -/
def sampleSlider : SliderState :=
  { position := some (1/2), disabled := false,
    image_size := ⟨0, 100, 400, 200⟩, px := 300, active := false,
    container_width := 600, drag_start_x := 0, was_dragged := false }

/-! ## Media synchronization (`VideoSliderPreview.svelte` lines 60–107)

A media handle exposes `currentTime`, `paused`, `ended` and `readyState`
(`HAVE_CURRENT_DATA = 2`).  The reactive sync block reads the primary and
writes the secondary; its writes and method calls are collected in a list. -/

/-- Observable transport state of an HTML video element. -/
structure MediaState where
  currentTime : ℚ
  paused : Bool
  ended : Bool
  readyState : ℕ
deriving DecidableEq

/-- The `readyState` constant `HAVE_CURRENT_DATA`. -/
def HAVE_CURRENT_DATA : ℕ := 2

/-- Writes and method calls the sync block makes on the secondary handle. -/
inductive SyncCall where
  | setSecondaryTime : ℚ → SyncCall
  | pauseSecondary : SyncCall
  | playSecondary : SyncCall
deriving DecidableEq

/-- One pass of the reactive sync block (`VideoSliderPreview.svelte` lines
92–106) with both handles non-null.  Returns the primary state (which the
block never writes), the secondary state after the synchronous
`currentTime` assignment, and the list of writes/calls made. -/
def tick (p s : MediaState) : MediaState × MediaState × List SyncCall :=
  let timePart :=
    if |p.currentTime - s.currentTime| > 1/10 then
      ({ s with currentTime := p.currentTime },
        [SyncCall.setSecondaryTime p.currentTime])
    else (s, ([] : List SyncCall))
  let s1 := timePart.1
  let pausePart :=
    if p.paused ≠ s1.paused then
      if p.paused then [SyncCall.pauseSecondary] else [SyncCall.playSecondary]
    else ([] : List SyncCall)
  (p, s1, timePart.2 ++ pausePart)

/-- Calls `toggle_playback` makes, tagged by target handle. -/
inductive PlaybackCall where
  | playPrimary : PlaybackCall
  | playSecondary : PlaybackCall
  | pausePrimary : PlaybackCall
  | pauseSecondary : PlaybackCall
deriving DecidableEq

/-- `toggle_playback` (`VideoSliderPreview.svelte` lines 65–79): returns
early when either handle is null; otherwise reads only `primary.paused`
and calls `play()` on both (each with its own `.catch`) when paused, else
`pause()` on both. -/
def toggle_playback (v1 v2 : Option MediaState) : List PlaybackCall :=
  match v1, v2 with
  | some m1, some _ =>
      if m1.paused then [PlaybackCall.playPrimary, PlaybackCall.playSecondary]
      else [PlaybackCall.pausePrimary, PlaybackCall.pauseSecondary]
  | _, _ => []

/-- Call targets of `Player.svelte`'s `play_pause`. -/
inductive PlayerCall where
  | play : PlayerCall
  | pause : PlayerCall
deriving DecidableEq

/-- The `isPlaying` test of `Player.svelte` lines 92–96:
`currentTime > 0 && !paused && !ended && readyState > HAVE_CURRENT_DATA`. -/
def isPlaying (v : MediaState) : Bool :=
  decide (v.currentTime > 0) && !v.paused && !v.ended
    && decide (v.readyState > HAVE_CURRENT_DATA)

/-- `play_pause` (`Player.svelte` lines 90–102); `fullscreenIsVideo` is the
`document.fullscreenElement == video` test. -/
def play_pause (fullscreenIsVideo : Bool) (v : MediaState) : List PlayerCall :=
  if fullscreenIsVideo then []
  else if !(isPlaying v) then [PlayerCall.play] else [PlayerCall.pause]

/-! ## Autoplay latch (`VideoSliderPreview.svelte` lines 60–62 and 84–89) -/

/-- The flags of `VideoSliderPreview.svelte` involved in autoplay:
`video1_el` models whether the primary element reference is non-null. -/
structure PreviewState where
  video1_el : Bool
  video_is_ready : Bool
  autoplay : Bool
  initial_autoplay_done : Bool
deriving DecidableEq

/-- The autoplay part of the reactive block (lines 86–89): returns the new
state and the number of `video1_el.play()` calls it makes (0 or 1). -/
def autoplay_block (s : PreviewState) : PreviewState × ℕ :=
  if s.video1_el && s.video_is_ready && s.autoplay && !s.initial_autoplay_done
  then ({ s with initial_autoplay_done := true }, 1)
  else (s, 0)

/-- Events that reach the autoplay logic: a `loadeddata` notification
(`handle_video_ready`, lines 60–62, followed by the reactive pass) or any
other state change that re-runs the reactive block. -/
inductive PreviewEvent where
  | primaryReady : PreviewEvent
  | tick : PreviewEvent
deriving DecidableEq

/-- Process one event: `primaryReady` sets `video_is_ready` and then the
reactive block runs; a bare `tick` just re-runs the reactive block. -/
def previewStep (s : PreviewState) : PreviewEvent → PreviewState × ℕ
  | PreviewEvent.primaryReady => autoplay_block { s with video_is_ready := true }
  | PreviewEvent.tick => autoplay_block s

/-- Run a sequence of events, summing the autoplay `play()` calls. -/
def previewRun (s : PreviewState) : List PreviewEvent → PreviewState × ℕ
  | [] => (s, 0)
  | e :: es =>
      let r1 := previewStep s e
      let r2 := previewRun r1.1 es
      (r2.1, r1.2 + r2.2)

example : clamp 7 0 5 = 5 := by norm_num [clamp]
example : update_position_from_pc (1/2) 100 400 600 = 300 := by
  norm_num [update_position_from_pc, clamp]
example : posOfPixel 300 100 400 = 1/2 := by
  norm_num [posOfPixel, round, jsRound, epsilon]
example : posOfPixel 0 100 400 = -(1/4) := by
  norm_num [posOfPixel, round, jsRound, epsilon]
example : update_position_pos 5 0 0 = none := by
  norm_num [update_position_pos]
example : normalised_slider_position 150 = 1 := by
  norm_num [normalised_slider_position]


/-!
## Theorems
-/

/-- Claim C10: for every numeric value of the host-provided 0–100 `position`
prop, `Index.svelte` derives `max(0, min(100, position)) / 100`, which always
lies in [0,1]. -/
theorem normalised_slider_position_in_unit (p : ℚ) :
    0 ≤ normalised_slider_position p ∧ normalised_slider_position p ≤ 1 := by
  unfold normalised_slider_position
  constructor
  · exact div_nonneg (le_max_left 0 _) (by norm_num)
  · rw [div_le_one (by norm_num)]
    exact max_le (by norm_num) (min_le_left _ _)

/-- Claim C1 (code bug): `update_position` does NOT clamp the normalized
position.  With `image_size = {left: 100, width: 400}` and pointer `x = 0`
(inside the container but left of the content area) it sets
`position = round((0 - 100) / 400, 5) = -0.25`, outside [0,1], although the
spec and the component's own prop documentation say position is a normalized
value in [0,1]. -/
theorem update_position_unclamped_bug :
    update_position_pos 0 100 400 = some (-(1/4)) ∧ (-(1/4) : ℚ) < 0 := by
  constructor
  · norm_num [update_position_pos, posOfPixel, round, jsRound, epsilon]
  · norm_num

/-- Claim C2: one tick of the sync block never writes the primary, sets
`secondary.currentTime` exactly to `primary.currentTime` when the drift
exceeds 0.1 s, and leaves the secondary completely unchanged otherwise. -/
theorem tick_time_sync (p s : MediaState) :
    (tick p s).1 = p ∧
    (|p.currentTime - s.currentTime| > 1/10 →
      (tick p s).2.1.currentTime = p.currentTime) ∧
    (¬ |p.currentTime - s.currentTime| > 1/10 → (tick p s).2.1 = s) := by
  refine ⟨rfl, ?_, ?_⟩ <;> intro h <;> rw [one_div] at h <;> simp [tick, h]

/-- Witness for C2: a 0.2 s drift (10 vs 9.8) is corrected to exactly 10; a
0.05 s drift (10 vs 9.95) leaves the secondary unchanged. -/
theorem tick_time_sync_witness :
    (tick ⟨10, false, false, 4⟩ ⟨49/5, false, false, 4⟩).2.1.currentTime = 10 ∧
    (tick ⟨10, false, false, 4⟩ ⟨199/20, false, false, 4⟩).2.1 =
      ⟨199/20, false, false, 4⟩ :=
  ⟨(tick_time_sync ⟨10, false, false, 4⟩ ⟨49/5, false, false, 4⟩).2.1
      (by
        show (1:ℚ)/10 < |(10:ℚ) - 49/5|
        rw [show (10:ℚ) - 49/5 = 1/5 by norm_num,
          abs_of_pos (by norm_num : (0:ℚ) < 1/5)]
        norm_num),
    (tick_time_sync ⟨10, false, false, 4⟩ ⟨199/20, false, false, 4⟩).2.2
      (by
        show ¬ (1:ℚ)/10 < |(10:ℚ) - 199/20|
        rw [show (10:ℚ) - 199/20 = 1/20 by norm_num,
          abs_of_pos (by norm_num : (0:ℚ) < 1/20)]
        norm_num)⟩

/-- Normal form of `tick`: the time correction and the pause/play calls,
with the pause comparison reduced to the original `paused` flags (the
`currentTime` assignment does not change `paused`). -/
lemma tick_eq (p s : MediaState) :
    tick p s =
      (p,
        (if |p.currentTime - s.currentTime| > 1/10
          then { s with currentTime := p.currentTime } else s),
        (if |p.currentTime - s.currentTime| > 1/10
          then [SyncCall.setSecondaryTime p.currentTime]
          else ([] : List SyncCall)) ++
        (if p.paused ≠ s.paused then
            (if p.paused
              then [SyncCall.pauseSecondary] else [SyncCall.playSecondary])
          else [])) := by
  unfold tick
  split_ifs <;> simp_all

/-- Claim C3: when the paused flags differ, one tick makes exactly one
`secondary.pause()` call and no `play()` call if the primary is paused, and
exactly one `secondary.play()` call and no `pause()` call otherwise; when
the flags agree it makes neither call. -/
theorem tick_pause_sync (p s : MediaState) :
    (p.paused ≠ s.paused →
      (tick p s).2.2.count SyncCall.pauseSecondary =
        (if p.paused then 1 else 0) ∧
      (tick p s).2.2.count SyncCall.playSecondary =
        (if p.paused then 0 else 1)) ∧
    (p.paused = s.paused →
      (tick p s).2.2.count SyncCall.pauseSecondary = 0 ∧
      (tick p s).2.2.count SyncCall.playSecondary = 0) := by
  rw [tick_eq]
  constructor <;> intro h <;> cases hb : p.paused <;>
    simp_all [List.count_append, List.count_cons, List.count_nil] <;>
    split_ifs <;>
    simp_all [List.count_append, List.count_cons, List.count_nil]

/-- Witness for C3: primary paused, secondary playing — one tick makes one
`pause()` call and zero `play()` calls on the secondary. -/
theorem tick_pause_sync_witness :
    (tick ⟨10, true, false, 4⟩ ⟨10, false, false, 4⟩).2.2.count
        SyncCall.pauseSecondary = 1 ∧
    (tick ⟨10, true, false, 4⟩ ⟨10, false, false, 4⟩).2.2.count
        SyncCall.playSecondary = 0 := by
  have h :=
    (tick_pause_sync ⟨10, true, false, 4⟩ ⟨10, false, false, 4⟩).1 (by simp)
  simpa using h

/-- Claim C8: on an enabled, not-yet-moved drag session, a move event sets
`was_dragged` exactly when the displacement from the session's starting x
strictly exceeds 3 pixels. -/
theorem drag_move_threshold (s : SliderState) (hd : s.disabled = false)
    (hm : s.was_dragged = false) (x : ℚ) :
    (drag_move s x).1.was_dragged = true ↔ |x - s.drag_start_x| > 3 := by
  unfold drag_move updatePosState
  rw [hd]
  split_ifs with h <;> simp_all

/-- Witness for C8: starting at x = 0, a move to x = 4 (4 px) sets the flag
and a move to x = 3 (exactly 3 px) does not. -/
theorem drag_move_threshold_witness :
    (drag_move sampleSlider 4).1.was_dragged = true ∧
    ¬ (drag_move sampleSlider 3).1.was_dragged = true :=
  ⟨(drag_move_threshold sampleSlider rfl rfl 4).mpr (by norm_num [sampleSlider]),
    fun h => by
      have h3 := (drag_move_threshold sampleSlider rfl rfl 3).mp h
      norm_num [sampleSlider] at h3⟩

/-- Counterexample for C7: with `geometry.width = 0` the conversion does not
return a (finite) safe default — under JavaScript number semantics
`(x - left) / 0` is Infinity or NaN, modelled as `none`. -/
theorem width_zero_no_safe_default :
    ¬ ∃ q : ℚ, update_position_pos 5 0 0 = some q := by
  simp [update_position_pos]

/-- Claim C7 as amended: when `geometry.width` is 0, `update_position`'s
normalized output is non-finite (Infinity or NaN), not a safe default; its
pixel output is still safely clamped into [0, containerWidth]; and
`set_position` self-corrects on the next geometry observation by
re-measuring the content width from the DOM when the width prop is 0. -/
theorem width_zero_behavior (x left container_width mpw mew pos : ℚ)
    (hcw : 0 ≤ container_width) :
    update_position_pos x left 0 = none ∧
    0 ≤ update_position_px x container_width ∧
    update_position_px x container_width ≤ container_width ∧
    (set_position 0 mpw mew left pos).2.1 = mew := by
  refine ⟨by simp [update_position_pos], ?_, ?_, by simp [set_position]⟩
  · exact le_min (le_max_right _ _) hcw
  · exact min_le_right _ _

/-- Witness for C7's amended theorem at a concrete input. -/
theorem width_zero_behavior_witness :
    update_position_pos 5 0 0 = none ∧
    0 ≤ update_position_px 5 600 ∧
    update_position_px 5 600 ≤ 600 ∧
    (set_position 0 600 400 0 (1/2)).2.1 = 400 :=
  width_zero_behavior 5 0 600 600 400 (1/2) (by norm_num)
/-- Claim C4: on an enabled session, `drag_end` emits a click (carrying the
originating source event) exactly when `was_dragged` is false; a
pointer-down followed by a pointer-up with no movement emits exactly one
click and only the initial snap position update, while pointer-down, a
10 px move, pointer-up emits zero clicks and at least one position update. -/
theorem drag_click_iff (s : SliderState) (hd : s.disabled = false) :
    (∀ ev : ℕ, (drag_end s ev).2 =
      if s.was_dragged then [] else [SliderOut.click ev]) ∧
    (∀ (x : ℚ) (ev : ℕ),
      countClicks (dragRun s [DragEvent.down x, DragEvent.up ev]).2 = 1 ∧
      countPosUpdates (dragRun s [DragEvent.down x, DragEvent.up ev]).2 = 1) ∧
    (∀ (x : ℚ) (ev : ℕ),
      countClicks
        (dragRun s
          [DragEvent.down x, DragEvent.move (x + 10), DragEvent.up ev]).2 = 0 ∧
      1 ≤ countPosUpdates
        (dragRun s
          [DragEvent.down x, DragEvent.move (x + 10), DragEvent.up ev]).2) := by
  refine ⟨fun ev => ?_, fun x ev => ?_, fun x ev => ?_⟩
  · unfold drag_end
    rw [hd]
    split_ifs <;> simp_all
  · simp [dragRun, dragStep, drag_start, drag_move, drag_end, updatePosState,
      hd, countClicks, countPosUpdates]
  · norm_num [dragRun, dragStep, drag_start, drag_move, drag_end,
      updatePosState, hd, countClicks, countPosUpdates]

/-- Witness for C4 on the spec's end-to-end geometry: a press-and-release
at x = 300 emits one click and one snap update; a press, 10 px move and
release emits no click and two position updates. -/
theorem drag_click_iff_witness :
    countClicks (dragRun sampleSlider [DragEvent.down 300, DragEvent.up 7]).2
        = 1 ∧
    countClicks
      (dragRun sampleSlider
        [DragEvent.down 300, DragEvent.move (300 + 10), DragEvent.up 7]).2
      = 0 :=
  ⟨((drag_click_iff sampleSlider rfl).2.1 300 7).1,
    ((drag_click_iff sampleSlider rfl).2.2 300 7).1⟩

/-- Counterexample for C5: in the buffering edge case (`currentTime` 5 s,
not paused, not ended, `readyState = HAVE_CURRENT_DATA` so insufficient
data), the claim requires `play()` on both handles, but `toggle_playback`
reads only `paused` and calls `pause()` on both. -/
theorem toggle_playback_edge_cex :
    toggle_playback (some ⟨5, false, false, 2⟩) (some ⟨5, false, false, 2⟩) =
        [PlaybackCall.pausePrimary, PlaybackCall.pauseSecondary] ∧
    toggle_playback (some ⟨5, false, false, 2⟩) (some ⟨5, false, false, 2⟩) ≠
        [PlaybackCall.playPrimary, PlaybackCall.playSecondary] := by
  constructor <;> simp [toggle_playback]

/-- Claim C5 as amended: with both handles non-null, `toggle_playback`
reads only `primary.paused` — `play()` on both when paused, `pause()` on
both otherwise, one call per handle issued unconditionally (so a failure of
one cannot suppress the other).  The insufficient-data edge case is not
special-cased there: in that situation `toggle_playback` pauses both, while
the per-video `play_pause` of `Player.svelte` (which owns the `isPlaying`
test) would call `play()`. -/
theorem toggle_playback_reads_paused (m1 m2 : MediaState) :
    toggle_playback (some m1) (some m2) =
      (if m1.paused
        then [PlaybackCall.playPrimary, PlaybackCall.playSecondary]
        else [PlaybackCall.pausePrimary, PlaybackCall.pauseSecondary]) ∧
    (toggle_playback (some m1) (some m2)).length = 2 ∧
    (m1.paused = false → m1.ended = false → 0 < m1.currentTime →
      m1.readyState ≤ HAVE_CURRENT_DATA →
      toggle_playback (some m1) (some m2) =
          [PlaybackCall.pausePrimary, PlaybackCall.pauseSecondary] ∧
      play_pause false m1 = [PlayerCall.play]) := by
  refine ⟨?_, ?_, fun hp he hc hr => ⟨?_, ?_⟩⟩
  · cases hb : m1.paused <;> simp [toggle_playback, hb]
  · cases hb : m1.paused <;> simp [toggle_playback, hb]
  · simp [toggle_playback, hp]
  · have hnr : ¬ m1.readyState > HAVE_CURRENT_DATA := by omega
    simp [play_pause, isPlaying, hp, he, hc, hnr]

/-- Witness for C5's amended theorem at the edge-case input. -/
theorem toggle_playback_reads_paused_witness :
    toggle_playback (some ⟨5, false, false, 2⟩) (some ⟨5, false, false, 2⟩) =
        [PlaybackCall.pausePrimary, PlaybackCall.pauseSecondary] ∧
    play_pause false ⟨5, false, false, 2⟩ = [PlayerCall.play] :=
  (toggle_playback_reads_paused ⟨5, false, false, 2⟩ ⟨5, false, false, 2⟩).2.2
    rfl rfl (by norm_num) (by norm_num [HAVE_CURRENT_DATA])

/-- Case analysis of one pass of the autoplay block: either it makes no
`play()` call and leaves the state unchanged, or it makes exactly one and
latches `initial_autoplay_done` (which was previously unset). -/
lemma autoplay_block_spec (s : PreviewState) :
    ((autoplay_block s).2 = 0 ∧ (autoplay_block s).1 = s) ∨
    ((autoplay_block s).2 = 1 ∧
      (autoplay_block s).1.initial_autoplay_done = true ∧
      s.initial_autoplay_done = false) := by
  unfold autoplay_block
  split_ifs with h
  · right
    simp_all
  · left
    exact ⟨rfl, rfl⟩

/-- One event step makes 0 or 1 autoplay `play()` calls; a call latches the
flag, and the flag never resets. -/
lemma previewStep_spec (s : PreviewState) (e : PreviewEvent) :
    ((previewStep s e).2 = 0 ∧
      (previewStep s e).1.initial_autoplay_done = s.initial_autoplay_done) ∨
    ((previewStep s e).2 = 1 ∧
      (previewStep s e).1.initial_autoplay_done = true ∧
      s.initial_autoplay_done = false) := by
  cases e <;>
    · rcases autoplay_block_spec _ with ⟨h0, hs⟩ | ⟨h1, hd, hu⟩
      · left
        constructor
        · exact h0
        · rw [previewStep] at *
          simp [hs]
      · right
        exact ⟨h1, hd, hu⟩

/-- Total autoplay `play()` calls over any event sequence are bounded by 1,
and by 0 once the latch is set. -/
lemma previewRun_le (evs : List PreviewEvent) : ∀ s : PreviewState,
    (previewRun s evs).2 ≤ if s.initial_autoplay_done then 0 else 1 := by
  induction evs with
  | nil =>
      intro s
      simp [previewRun]
  | cons e es ih =>
      intro s
      have hrun : (previewRun s (e :: es)).2
          = (previewStep s e).2 + (previewRun (previewStep s e).1 es).2 := rfl
      rw [hrun]
      have ht := ih (previewStep s e).1
      rcases previewStep_spec s e with ⟨h0, hkeep⟩ | ⟨h1, hd, hu⟩
      · rw [hkeep] at ht
        rw [h0, zero_add]
        exact ht
      · rw [hd] at ht
        simp only [if_pos] at ht
        rw [h1, hu]
        simp only [Bool.false_eq_true, if_false]
        omega

/-- Claim C6: starting with the latch unset, any sequence of ready
notifications and reactive ticks makes at most one autoplay `play()` call;
with the primary element present and autoplay configured, the first ready
notification makes the call and sets the latch, and two consecutive ready
notifications make exactly one call in total. -/
theorem autoplay_at_most_once (s : PreviewState)
    (h : s.initial_autoplay_done = false) :
    (∀ evs : List PreviewEvent, (previewRun s evs).2 ≤ 1) ∧
    (s.video1_el = true → s.autoplay = true →
      (previewStep s PreviewEvent.primaryReady).2 = 1 ∧
      (previewStep s PreviewEvent.primaryReady).1.initial_autoplay_done
        = true) ∧
    (s.video1_el = true → s.autoplay = true →
      (previewRun s
        [PreviewEvent.primaryReady, PreviewEvent.primaryReady]).2 = 1) := by
  refine ⟨fun evs => ?_, fun hv ha => ?_, fun hv ha => ?_⟩
  · have := previewRun_le evs s
    rw [h] at this
    simpa using this
  · simp [previewStep, autoplay_block, h, hv, ha]
  · simp [previewRun, previewStep, autoplay_block, h, hv, ha]

/-- Witness for C6: primary present, not yet ready, autoplay on, latch
unset; two ready notifications make exactly one `play()` call. -/
theorem autoplay_at_most_once_witness :
    (previewRun ⟨true, false, true, false⟩
      [PreviewEvent.primaryReady, PreviewEvent.primaryReady]).2 = 1 :=
  (autoplay_at_most_once ⟨true, false, true, false⟩ rfl).2.2 rfl rfl

/-- Rounding to 5 decimal places (with the `Number.EPSILON` nudge) moves a
rational by at most 10⁻⁵. -/
lemma round5_abs_le (n : ℚ) : |round n 5 - n| ≤ 1 / 100000 := by
  have hgoal : round n 5
      = ((⌊(n + epsilon) * 10 ^ 5 + 1 / 2⌋ : ℤ) : ℚ) / 10 ^ 5 := by
    simp [round, jsRound]
  have hfl := Int.floor_le ((n + epsilon) * 10 ^ 5 + 1 / 2)
  have hfg := Int.sub_one_lt_floor ((n + epsilon) * 10 ^ 5 + 1 / 2)
  set F : ℚ := ((⌊(n + epsilon) * 10 ^ 5 + 1 / 2⌋ : ℤ) : ℚ) with hFdef
  have heps1 : (0:ℚ) < epsilon := by norm_num [epsilon]
  have heps2 : epsilon ≤ 1 / 1000000 := by norm_num [epsilon]
  rw [hgoal, abs_le]
  constructor <;> linarith

/-- Claim C9: for a geometry with positive width whose content area lies
inside the container, converting a strictly interior normalized position to
a pixel (`update_position_from_pc`) and back (`update_position`'s formula)
reproduces it within the 5-decimal rounding tolerance. -/
theorem roundtrip_within_tolerance (left width container_width p : ℚ)
    (hw : 0 < width) (hl : 0 ≤ left) (hc : left + width ≤ container_width)
    (hp0 : 0 < p) (hp1 : p < 1) :
    |posOfPixel (update_position_from_pc p left width container_width)
        left width - p| ≤ 1 / 100000 := by
  have hlo : (0:ℚ) ≤ width * p + left := by nlinarith
  have hhi : width * p + left ≤ container_width := by nlinarith
  have hclamp : update_position_from_pc p left width container_width
      = width * p + left := by
    unfold update_position_from_pc clamp
    rw [max_eq_left hlo, min_eq_left hhi]
  rw [hclamp]
  have hx : (width * p + left - left) / width = p := by
    field_simp
  unfold posOfPixel
  rw [hx]
  exact round5_abs_le p

/-- Witness for C9: geometry left 0, width 1, container width 1, p = 1/2. -/
theorem roundtrip_within_tolerance_witness :
    |posOfPixel (update_position_from_pc (1/2) 0 1 1) 0 1 - 1/2|
      ≤ 1 / 100000 :=
  roundtrip_within_tolerance 0 1 1 (1/2) (by norm_num) (by norm_num)
    (by norm_num) (by norm_num) (by norm_num)

end VideoSlider
